import Mathlib

/-!
# Verification of the NMSLIB C wrapper (`src/nmslib_c.cpp`)

Shallow embedding of the C wrapper `nmslib_c.cpp` / `nmslib_c.h`.

Modelling conventions:

* C pointers that may be null are modelled as `Option`; `none` is a null
  pointer.
* The opaque handle `nmslib_index_handle_t` points at a
  `nmslib_internal_index_t<dist_t>`; the fields the wrapper reads and
  writes are modelled in `IndexState`.  The `index_ptr` member (a
  `std::unique_ptr` that is null until `nmslib_create_index` succeeds and
  after `nmslib_reset_index`) is modelled by the boolean `hasIndexPtr`.
* The wrapped engine (spaces, methods, `Index::Search`) is external to the
  repository.  Its observable inputs to the wrapper are modelled as
  parameters: the two `SpaceFactoryRegistry` instances become functions
  `String → Option Space` (`CreateSpace` returning null is `none`), a
  space's `dynamic_cast` targets become capability flags on `Space`, and
  the neighbor set produced by a search becomes a list of `Neighbor`
  values in the order the wrapper consumes them (`KNNQueue` pop order for
  k-NN, the parallel `Result()`/`ResultDists()` arrays for range queries).
* Distance values are floats in C; the wrapper never performs arithmetic
  on them (it only copies, and casts `int` distances to `float`), so they
  are carried as `Int`.
* Calling a member function through a null `index_ptr`
  (`idx->index_ptr->Search(...)`) is undefined behavior in C++ and is not
  a catchable exception; it is modelled by the dedicated outcome `crash`.
-/

namespace NmslibC

/-- `nmslib_error_t` from `nmslib_c.h`. -/
inductive ErrorCode where
  | success
  | nullPointer
  | invalidArgument
  | outOfMemory
  | bufferTooSmall
  | spaceIncompatible
  | queryTooLarge
  | invalidSparseElement
  | indexBuildFailed
  | queryExecutionFailed
  | dataIOFailed
  | pluginRegistrationFailed
  | internalError
  | runtimeError
  | indexNotBuilt
  deriving DecidableEq

/-- `nmslib_data_type_t` from `nmslib_c.h`. -/
inductive DataType where
  | denseVector
  | sparseVector
  | denseUint8Vector
  | objectAsString
  deriving DecidableEq

/-- `nmslib_dist_type_t` from `nmslib_c.h`. -/
inductive DistType where
  | float
  | int
  deriving DecidableEq

/-- `nmslib_sparse_elem_float_t`: a (uint32 id, float value) pair.  The
value is never inspected by the wrapper, only copied; it is carried as an
`Int`. -/
structure SparseElem where
  id : Nat
  value : Int
  deriving DecidableEq

/-- Capabilities of an engine `Space` object, i.e. which of the
`dynamic_cast`s performed by the wrapper succeed on it
(`VectorSpace<dist_t>`, `SpaceSparseVector<float>`, `SpaceL2SqrSift`). -/
structure Space where
  isVectorSpace : Bool
  isSparseSpace : Bool
  isSiftSpace : Bool
  deriving DecidableEq

/-- The wire content a caller hands across the boundary (`const void*
data` plus its agreed-upon interpretation).  The constructor records the
encoding the caller actually serialized; the wrapper reinterprets the raw
bytes according to the handle's `data_type`.  The byte-level
reinterpretation of a payload that does not match the handle's
`data_type` is caller undefined behavior and is not modelled: branches
pairing a `data_type` with a mismatched constructor are completed with
`spaceIncompatible` and exercised by no theorem. -/
inductive Payload where
  | dense (vals : List Int)
  | sparse (elems : List SparseElem)
  | uint8v (bytes : List Nat)
  | objStr (s : String)
  deriving DecidableEq

/-- Number of wire elements in a payload (the `element_count` /
`query_size_or_elem_count` a conforming caller passes alongside it). -/
def payloadCount : Payload → Nat
  | .dense v => v.length
  | .sparse e => e.length
  | .uint8v b => b.length
  | .objStr s => s.length

/-- One stored `Object*` held in the handle's `ObjectVector data`: its id
and the content it was created from. -/
structure StoredPoint where
  id : Int
  payload : Payload
  deriving DecidableEq

/-- The fields of `nmslib_internal_index_t<dist_t>` that the wrapper
reads or writes.  `hasIndexPtr` models whether the `index_ptr` unique_ptr
is non-null (it is null on a freshly created handle and after a reset). -/
structure IndexState where
  data_type : DataType
  dist_type : DistType
  space : Space
  hasIndexPtr : Bool
  data : List StoredPoint
  method : String
  space_type : String
  thread_pool_size : Nat
  deriving DecidableEq

/-- The consecutive-pair loop of `NMSLIBUtil::validate_sparse_elements`:
`true` iff no `elements[i].id <= elements[i-1].id` occurs. -/
def sparseIdsOrdered : List SparseElem → Bool
  | [] => true
  | [_] => true
  | a :: b :: rest =>
    if b.id ≤ a.id then false else sparseIdsOrdered (b :: rest)

/-- `NMSLIBUtil::validate_sparse_elements(elements, num_elements,
sorted)`.  `elements = none` is a null pointer; a conforming caller's
`num_elements` equals the element list's length. -/
def validate_sparse_elements (elements : Option (List SparseElem))
    (num_elements : Nat) (sorted : Bool) : ErrorCode :=
  match elements with
  | none => .invalidSparseElement
  | some elems =>
    if num_elements = 0 then .invalidSparseElement
    else if sorted && !sparseIdsOrdered elems then .invalidSparseElement
    else .success

/-- `NMSLIBUtil::validate_common_inputs(index, data, size, out)`.  The
pointer arguments are modelled by their non-nullness.  NOTE: in the C
source `out` has the default argument `nullptr`, and the guard rejects a
null `out`; the three-argument call sites (`nmslib_add_data_point`,
`nmslib_add_data_point_batch`, `nmslib_add_data_point_batch_string`)
therefore pass `out := false` here and can never see `success`. -/
def validate_common_inputs (index : Bool) (data : Bool) (size : Nat)
    (out : Bool) : ErrorCode :=
  if !index then .invalidArgument
  else if !data then .invalidArgument
  else if size = 0 then .invalidArgument
  else if !out then .invalidArgument
  else .success

/-- `nmslib_index_create`.  The two engine space registries are the
parameters `floatReg` and `intReg` (`CreateSpace` returning null is
`none`); `hw` models `std::thread::hardware_concurrency()`.  The C null
checks on `space`, `method` and the allocator concern raw pointers and
cannot fail for the Lean values; allocation failure paths
(`outOfMemory`) are not modelled. -/
def nmslib_index_create (floatReg intReg : String → Option Space)
    (hw : Nat) (space method : String) (data_type : DataType)
    (dist_type : DistType) : Except ErrorCode IndexState :=
  match dist_type with
  | .float =>
    match floatReg space with
    | none => .error .spaceIncompatible
    | some sp =>
      .ok { data_type := data_type, dist_type := .float, space := sp,
            hasIndexPtr := false, data := [], method := method,
            space_type := space, thread_pool_size := hw }
  | .int =>
    match intReg space with
    | none => .error .spaceIncompatible
    | some sp =>
      .ok { data_type := data_type, dist_type := .int, space := sp,
            hasIndexPtr := false, data := [], method := method,
            space_type := space, thread_pool_size := hw }

/-- The behavior §4.1 of the spec ascribes to the factory, stated from
the spec's words for comparison with `nmslib_index_create`: "Tries to
construct the space under the real-valued instantiation first; if that
space name is unknown there, falls back to the integer-valued
instantiation.  Fails with `SpaceIncompatible` if neither registry
recognizes the space name." -/
def index_create_spec (floatReg intReg : String → Option Space)
    (hw : Nat) (space method : String) (data_type : DataType) :
    Except ErrorCode IndexState :=
  match floatReg space with
  | some sp =>
    .ok { data_type := data_type, dist_type := .float, space := sp,
          hasIndexPtr := false, data := [], method := method,
          space_type := space, thread_pool_size := hw }
  | none =>
    match intReg space with
    | some sp =>
      .ok { data_type := data_type, dist_type := .int, space := sp,
            hasIndexPtr := false, data := [], method := method,
            space_type := space, thread_pool_size := hw }
    | none => .error .spaceIncompatible

/-- `nmslib_create_index` (the build operation).  The engine work —
`CreateMethod` followed by `CreateIndex` — is summarized by `engineOk`:
on success `index_ptr` is set, on an engine exception the wrapper
returns `indexBuildFailed` (both CreateMethod-throws and
CreateIndex-throws collapse to the failure branch; neither touches the
discriminant fields). -/
def nmslib_create_index (handle : Option IndexState) (engineOk : Bool) :
    ErrorCode × Option IndexState :=
  match handle with
  | none => (.invalidArgument, none)
  | some st =>
    if engineOk then (.success, some { st with hasIndexPtr := true })
    else (.indexBuildFailed, some st)

/-- `nmslib_reset_index`: deletes all points (`data.clear()`) and the
built structure (`index_ptr.reset()`). -/
def nmslib_reset_index (handle : Option IndexState) :
    ErrorCode × Option IndexState :=
  match handle with
  | none => (.invalidArgument, none)
  | some st =>
    (.success, some { st with data := [], hasIndexPtr := false })

/-- `nmslib_set_thread_pool_size`. -/
def nmslib_set_thread_pool_size (handle : Option IndexState)
    (size : Nat) : ErrorCode × Option IndexState :=
  match handle with
  | none => (.invalidArgument, none)
  | some st =>
    if size = 0 || size > 1024 then (.invalidArgument, some st)
    else (.success, some { st with thread_pool_size := size })

/-- The `switch (idx->data_type)` body of `nmslib_add_data_point`: builds
the `Object` and appends it (`idx->data.push_back`), or fails without
touching the state. -/
def addPointBody (st : IndexState) (data : Payload) (element_count : Nat)
    (id : Int) : ErrorCode × IndexState :=
  match st.data_type, data with
  | .denseVector, .dense v =>
    -- both dist branches dynamic_cast to VectorSpace<dist_t>
    if st.space.isVectorSpace then
      (.success, { st with data := st.data ++ [⟨id, .dense v⟩] })
    else (.spaceIncompatible, st)
  | .sparseVector, .sparse elems =>
    match st.dist_type with
    | .float =>
      match validate_sparse_elements (some elems) element_count true with
      | .success =>
        if st.space.isSparseSpace then
          (.success, { st with data := st.data ++ [⟨id, .sparse elems⟩] })
        else (.spaceIncompatible, st)
      | e => (e, st)
    | .int => (.spaceIncompatible, st)
  | .denseUint8Vector, .uint8v b =>
    match st.dist_type with
    | .float =>
      if st.space.isSiftSpace then
        (.success, { st with data := st.data ++ [⟨id, .uint8v b⟩] })
      else (.spaceIncompatible, st)
    | .int => (.spaceIncompatible, st)
  | .objectAsString, .objStr s =>
    match st.dist_type with
    | .float =>
      (.success, { st with data := st.data ++ [⟨id, .objStr s⟩] })
    | .int => (.spaceIncompatible, st)
  | _, _ => (.spaceIncompatible, st)  -- mismatched wire payload: not modelled

/-- `nmslib_add_data_point`.  The guard is the three-argument
`validate_common_inputs` call of the source, i.e. `out` is left at its
`nullptr` default (`false` below), so the guard returns
`invalidArgument` on every input and `addPointBody` is unreachable. -/
def nmslib_add_data_point (handle : Option IndexState)
    (data : Option Payload) (element_count : Nat) (id : Int) :
    ErrorCode × Option IndexState :=
  match validate_common_inputs handle.isSome data.isSome element_count
      false with
  | .success =>
    match handle, data with
    | some st, some p =>
      let r := addPointBody st p element_count id
      (r.1, some r.2)
    | _, _ => (.invalidArgument, handle)
  | e => (e, handle)

/-- One element of `nmslib_add_data_point_batch`'s loop: the per-row
`switch (idx->data_type)` (only dense and sparse rows are supported; the
`default` arm rejects other data types).  `num_elements` is the optional
per-row count array required for sparse rows; a conforming caller's
`num_elements[i]` equals the row's element count. -/
def batchRowBody (st : IndexState) (row : Payload) (element_count : Nat)
    (id : Int) (numElemsAt : Option Nat) : Except ErrorCode IndexState :=
  match st.data_type, row with
  | .denseVector, .dense v =>
    if st.space.isVectorSpace then
      .ok { st with data := st.data ++ [⟨id, .dense v⟩] }
    else .error .spaceIncompatible
  | .sparseVector, .sparse elems =>
    match st.dist_type with
    | .float =>
      match numElemsAt with
      | none => .error .invalidSparseElement
      | some n =>
        match validate_sparse_elements (some elems) n true with
        | .success =>
          if st.space.isSparseSpace then
            .ok { st with data := st.data ++ [⟨id, .sparse elems⟩] }
          else .error .spaceIncompatible
        | e => .error e
    | .int => .error .spaceIncompatible
  | _, _ => .error .spaceIncompatible

/-- The per-element id of the batch loop:
`ids ? ids[i] : static_cast<int32_t>(idx->data.size())` — the element's
id is `ids[i]` when `ids` is non-null (caller contract: `ids` holds
`count` entries) and the current point count otherwise. -/
def batchIdAt (ids : Option (List Int)) (i : Nat) (current : Nat) : Int :=
  match ids with
  | some l => l.getD i 0
  | none => Int.ofNat current

/-- The `for (size_t i = 0; i < count; ++i)` loop of
`nmslib_add_data_point_batch`: on the first failing element the call
returns with the elements already pushed still in place. -/
def addBatchLoop (st : IndexState) (rows : List Payload) (i : Nat)
    (element_count : Nat) (ids : Option (List Int))
    (num_elements : Option (List Nat)) : ErrorCode × IndexState :=
  match rows with
  | [] => (.success, st)
  | row :: rest =>
    match batchRowBody st row element_count (batchIdAt ids i st.data.length)
        (num_elements.map (fun l => l.getD i 0)) with
    | .error e => (e, st)
    | .ok st' => addBatchLoop st' rest (i + 1) element_count ids num_elements

/-- `nmslib_add_data_point_batch`.  As in `nmslib_add_data_point`, the
source calls `validate_common_inputs` with three arguments, so `out`
stays at its `nullptr` default and the guard rejects every call. -/
def nmslib_add_data_point_batch (handle : Option IndexState)
    (data : Option (List Payload)) (element_count : Nat)
    (ids : Option (List Int)) (num_elements : Option (List Nat)) :
    ErrorCode × Option IndexState :=
  match validate_common_inputs handle.isSome data.isSome
      ((data.getD []).length) false with
  | .success =>
    match handle, data with
    | some st, some rows =>
      let r := addBatchLoop st rows 0 element_count ids num_elements
      (r.1, some r.2)
    | _, _ => (.invalidArgument, handle)
  | e => (e, handle)

/-- The loop of `nmslib_add_data_point_batch_uint8` over the flat
`count × element_count` byte buffer, modelled as the list of its rows
(the guard has already ensured `ids` is non-null, so the id list is
consumed alongside the rows; a conforming caller supplies `count`
ids). -/
def uint8BatchLoop (st : IndexState) :
    List (List Nat) → List Int → ErrorCode × IndexState
  | [], _ => (.success, st)
  | row :: rest, id :: idrest =>
    match st.data_type with
    | .denseUint8Vector =>
      match st.dist_type with
      | .float =>
        if st.space.isSiftSpace then
          uint8BatchLoop { st with data := st.data ++ [⟨id, .uint8v row⟩] }
            rest idrest
        else (.spaceIncompatible, st)
      | .int => (.spaceIncompatible, st)
    | _ => (.spaceIncompatible, st)
  | _ :: _, [] => (.invalidArgument, st)  -- short id array: caller UB, unmodelled

/-- `nmslib_add_data_point_batch_uint8`.  Unlike the other insert paths
it has its own inline guard, which (deliberately) also rejects a null
`ids` array. -/
def nmslib_add_data_point_batch_uint8 (handle : Option IndexState)
    (data : Option (List (List Nat))) (count element_count : Nat)
    (ids : Option (List Int)) : ErrorCode × Option IndexState :=
  if handle.isNone || data.isNone || count = 0 || element_count = 0
      || ids.isNone then
    (.invalidArgument, handle)
  else
    match handle, data, ids with
    | some st, some rows, some idlist =>
      if st.data_type ≠ .denseUint8Vector then
        (.spaceIncompatible, some st)
      else
        let r := uint8BatchLoop st rows idlist
        (r.1, some r.2)
    | _, _, _ => (.invalidArgument, handle)

/-- The loop of `nmslib_add_data_point_batch_string` (every
`CreateObjFromStr` append; ids default to the positional index). -/
def stringBatchLoop (st : IndexState) (rows : List String) (i : Nat)
    (ids : Option (List Int)) : IndexState :=
  match rows with
  | [] => st
  | s :: rest =>
    let id : Int := match ids with
      | some l => l.getD i 0
      | none => Int.ofNat st.data.length
    stringBatchLoop { st with data := st.data ++ [⟨id, .objStr s⟩] }
      rest (i + 1) ids

/-- `nmslib_add_data_point_batch_string`.  Same three-argument
`validate_common_inputs` guard as the other batch call, hence also
unconditionally rejected. -/
def nmslib_add_data_point_batch_string (handle : Option IndexState)
    (data : Option (List String)) (ids : Option (List Int)) :
    ErrorCode × Option IndexState :=
  match validate_common_inputs handle.isSome data.isSome
      ((data.getD []).length) false with
  | .success =>
    match handle, data with
    | some st, some rows =>
      if st.data_type ≠ .objectAsString || st.dist_type ≠ .float then
        (.spaceIncompatible, some st)
      else (.success, some (stringBatchLoop st rows 0 ids))
    | _, _ => (.invalidArgument, handle)
  | e => (e, handle)

/-- One neighbor as the wrapper consumes it: the stored object's id and
the distance value reported by the engine. -/
structure Neighbor where
  id : Int
  dist : Int
  deriving DecidableEq

/-- `nmslib_result_t`: caller-owned parallel arrays plus declared
capacity and output size.  The arrays may be null (`none`); a conforming
caller's arrays hold `capacity` entries. -/
structure ResultBuffer where
  ids : Option (List Int)
  distances : Option (List Int)
  size : Nat
  capacity : Nat
  deriving DecidableEq

/-- Writing `new.length` entries into the front of a caller array of
previous contents `old` (the fill loops write indices `0 ..
new.length - 1` and leave the rest untouched). -/
def writeArr (old new : List Int) : List Int :=
  new ++ old.drop new.length

/-- Outcome of a fill call: a returned error code together with the
caller's buffer as the call leaves it, or undefined behavior (the null
`index_ptr` dereference). -/
inductive Outcome where
  | ret (code : ErrorCode) (buf : Option ResultBuffer)
  | crash
  deriving DecidableEq

/-- Outcome of a size query: a returned error code together with the
value written through `out_size` (`none` when nothing was written), or
undefined behavior. -/
inductive SizeOutcome where
  | ret (code : ErrorCode) (out : Option Nat)
  | crash
  deriving DecidableEq

/-- The search-and-copy tail shared verbatim by every successful branch
of `nmslib_knn_query_fill` and `nmslib_range_query_fill` (the C source
repeats this block once per branch with identical logic):
`idx->index_ptr->Search(...)` — a null-pointer dereference when no index
has been built — then the `result_size > capacity` check (returning with
the caller's buffer untouched), then `result->size = result_size`
followed by the copy loop over the engine's neighbors in order. -/
def searchFillCore (st : IndexState) (buf : ResultBuffer)
    (eng : List Neighbor) : Outcome :=
  if !st.hasIndexPtr then .crash
  else
    let n := eng.length
    if buf.capacity < n then .ret .bufferTooSmall (some buf)
    else
      .ret .success (some
        { buf with
          size := n,
          ids := some (writeArr (buf.ids.getD []) (eng.map Neighbor.id)),
          distances :=
            some (writeArr (buf.distances.getD [])
              (eng.map Neighbor.dist)) })

/-- The per-`data_type` query dispatch shared by the query operations:
the C source repeats this block in `nmslib_knn_query_fill`,
`nmslib_range_query_fill` and the size queries, once per branch with
identical structure — dense queries require the `VectorSpace` cast
(either dist branch; the int branch additionally casts each distance to
float), sparse/float queries first run `validate_sparse_elements` on the
query with its element count and then require the `SpaceSparseVector`
cast, sparse/int and every other `data_type` fail `spaceIncompatible` —
and each surviving branch falls through to the search-and-copy tail. -/
def queryDispatch (st : IndexState) (q : Payload) (qcount : Nat)
    (buf : ResultBuffer) (eng : List Neighbor) : Outcome :=
  match st.data_type, q with
  | .denseVector, .dense _ =>
    if !st.space.isVectorSpace then .ret .spaceIncompatible (some buf)
    else searchFillCore st buf eng
  | .sparseVector, .sparse elems =>
    match st.dist_type with
    | .float =>
      match validate_sparse_elements (some elems) qcount true with
      | .success =>
        if !st.space.isSparseSpace then .ret .spaceIncompatible (some buf)
        else searchFillCore st buf eng
      | e => .ret e (some buf)
    | .int => .ret .spaceIncompatible (some buf)
  | _, _ => .ret .spaceIncompatible (some buf)

/-- `nmslib_knn_query_fill`.  `eng` is the pop-order content of the
`KNNQueue` the engine's search would produce for this query (the engine
is external; the wrapper consumes the queue by repeated
`TopObject`/`TopDistance`/`Pop`).  It is consulted only after the
`Search` call, so an unbuilt handle crashes before `eng` matters. -/
def nmslib_knn_query_fill (handle : Option IndexState)
    (query : Option Payload) (k : Nat) (result : Option ResultBuffer)
    (eng : List Neighbor) : Outcome :=
  let qcount := match query with
    | some q => payloadCount q
    | none => 0
  match validate_common_inputs handle.isSome query.isSome qcount
      result.isSome with
  | .success =>
    match handle, query, result with
    | some st, some q, some buf =>
      if buf.ids.isNone || buf.distances.isNone || buf.capacity < k then
        .ret .invalidArgument (some buf)
      else queryDispatch st q qcount buf eng
    | _, _, _ => .ret .invalidArgument result
  | e => .ret e result

/-- `nmslib_range_query_fill`.  `eng` is the content of the engine's
`Result()`/`ResultDists()` arrays in index order; `radius` is forwarded
to the engine and otherwise unused by the wrapper.  The buffer guard
requires a nonzero capacity rather than `capacity ≥ k`. -/
def nmslib_range_query_fill (handle : Option IndexState)
    (query : Option Payload) (radius : Int) (result : Option ResultBuffer)
    (eng : List Neighbor) : Outcome :=
  let qcount := match query with
    | some q => payloadCount q
    | none => 0
  match validate_common_inputs handle.isSome query.isSome qcount
      result.isSome with
  | .success =>
    match handle, query, result with
    | some st, some q, some buf =>
      if buf.ids.isNone || buf.distances.isNone || buf.capacity = 0 then
        .ret .invalidArgument (some buf)
      else queryDispatch st q qcount buf eng
    | _, _, _ => .ret .invalidArgument result
  | e => .ret e result

/-- The dispatch of `nmslib_range_query_get_size` (same query
construction, casts and `Search` as the fill — including the null
`index_ptr` dereference — but writing only the result count). -/
def sizeQueryDispatch (st : IndexState) (q : Payload) (qcount : Nat)
    (eng : List Neighbor) : SizeOutcome :=
  match st.data_type, q with
  | .denseVector, .dense _ =>
    if !st.space.isVectorSpace then .ret .spaceIncompatible none
    else if !st.hasIndexPtr then .crash
    else .ret .success (some eng.length)
  | .sparseVector, .sparse elems =>
    match st.dist_type with
    | .float =>
      match validate_sparse_elements (some elems) qcount true with
      | .success =>
        if !st.space.isSparseSpace then .ret .spaceIncompatible none
        else if !st.hasIndexPtr then .crash
        else .ret .success (some eng.length)
      | e => .ret e none
    | .int => .ret .spaceIncompatible none
  | _, _ => .ret .spaceIncompatible none

/-- `nmslib_range_query_get_size`: runs the search and writes the engine
result count through `out_size`.  `outProvided` models whether the
caller's `out_size` pointer is non-null. -/
def nmslib_range_query_get_size (handle : Option IndexState)
    (query : Option Payload) (radius : Int) (outProvided : Bool)
    (eng : List Neighbor) : SizeOutcome :=
  let qcount := match query with
    | some q => payloadCount q
    | none => 0
  match validate_common_inputs handle.isSome query.isSome qcount
      outProvided with
  | .success =>
    match handle, query with
    | some st, some q => sizeQueryDispatch st q qcount eng
    | _, _ => .ret .invalidArgument none
  | e => .ret e none

/-- The handle-mutating operations of the wrapper, for stating
lifetime-long invariants (claim C1's insert/build/reset cycles plus the
remaining mutators). -/
inductive HandleOp where
  | addPoint (data : Option Payload) (element_count : Nat) (id : Int)
  | addBatch (data : Option (List Payload)) (element_count : Nat)
      (ids : Option (List Int)) (num_elements : Option (List Nat))
  | addBatchUint8 (data : Option (List (List Nat)))
      (count element_count : Nat) (ids : Option (List Int))
  | addBatchString (data : Option (List String)) (ids : Option (List Int))
  | build (engineOk : Bool)
  | reset
  | setThreadPoolSize (size : Nat)

/-- Applying one operation to a live handle: the state the wrapper
leaves behind (each operation returns `some` state when given one). -/
def applyOp (op : HandleOp) (st : IndexState) : IndexState :=
  match op with
  | .addPoint d ec id => (nmslib_add_data_point (some st) d ec id).2.getD st
  | .addBatch d ec ids ne =>
    (nmslib_add_data_point_batch (some st) d ec ids ne).2.getD st
  | .addBatchUint8 d c ec ids =>
    (nmslib_add_data_point_batch_uint8 (some st) d c ec ids).2.getD st
  | .addBatchString d ids =>
    (nmslib_add_data_point_batch_string (some st) d ids).2.getD st
  | .build ok => (nmslib_create_index (some st) ok).2.getD st
  | .reset => (nmslib_reset_index (some st)).2.getD st
  | .setThreadPoolSize n =>
    (nmslib_set_thread_pool_size (some st) n).2.getD st

/-- A whole lifetime of operations applied in order. -/
def applyOps (ops : List HandleOp) (st : IndexState) : IndexState :=
  ops.foldl (fun s op => applyOp op s) st

/-- Ascending-distance check used to state claim C4 (strictly
non-decreasing consecutive distances). -/
def distAscending : List Int → Bool
  | [] => true
  | [_] => true
  | a :: b :: rest => a ≤ b && distAscending (b :: rest)

/-! Concrete fixtures used to evaluate the embedded operations on
specific inputs. -/

/-- A space recognized as `VectorSpace<dist_t>` by the wrapper's casts. -/
def vecSpace : Space := ⟨true, false, false⟩

/-- A space recognized as `SpaceSparseVector<float>`. -/
def sparseSpaceCaps : Space := ⟨false, true, false⟩

/-- A space recognized as `SpaceL2SqrSift`. -/
def siftSpaceCaps : Space := ⟨false, false, true⟩

/-- A registry that recognizes every space name. -/
def regAll : String → Option Space := fun _ => some vecSpace

/-- A registry that recognizes no space name. -/
def regNone : String → Option Space := fun _ => none

/-- A freshly created dense/float handle (the record
`nmslib_index_create regAll regAll 4 "l2" "hnsw" denseVector float`
produces). -/
def freshDense : IndexState :=
  { data_type := .denseVector, dist_type := .float, space := vecSpace,
    hasIndexPtr := false, data := [], method := "hnsw", space_type := "l2",
    thread_pool_size := 4 }

/-- The dense/float handle after a successful build. -/
def builtDense : IndexState := { freshDense with hasIndexPtr := true }

/-- A freshly created sparse/float handle. -/
def sparseFloatSt : IndexState :=
  { data_type := .sparseVector, dist_type := .float,
    space := sparseSpaceCaps, hasIndexPtr := false, data := [],
    method := "hnsw", space_type := "negdotprod_sparse_fast",
    thread_pool_size := 4 }

/-- The sparse/float handle after a successful build. -/
def builtSparse : IndexState := { sparseFloatSt with hasIndexPtr := true }

/-- A uint8/float handle. -/
def u8St : IndexState :=
  { data_type := .denseUint8Vector, dist_type := .float,
    space := siftSpaceCaps, hasIndexPtr := false, data := [],
    method := "hnsw", space_type := "l2sqr_sift", thread_pool_size := 4 }

/-- Sparse elements with strictly increasing ids. -/
def goodSparse : List SparseElem := [⟨1, 10⟩, ⟨4, 20⟩, ⟨9, 30⟩]

/-- Sparse elements with a duplicated id. -/
def dupSparse : List SparseElem := [⟨3, 1⟩, ⟨3, 2⟩]

/-- A result buffer of capacity 1 whose `size` field holds the stale
value 7 from an earlier call. -/
def staleBuf : ResultBuffer := ⟨some [0], some [0], 7, 1⟩

/-- An engine result with two neighbors. -/
def engTwo : List Neighbor := [⟨1, 1⟩, ⟨2, 2⟩]

/-- A zeroed result buffer of capacity 2. -/
def zeroBuf2 : ResultBuffer := ⟨some [0, 0], some [0, 0], 0, 2⟩

/-- An engine pop order with strictly decreasing distances (the order a
max-heap `KNNQueue` pops: farthest first). -/
def engDesc : List Neighbor := [⟨0, 5⟩, ⟨1, 3⟩]

/-- The buffer `nmslib_knn_query_fill` produces from `zeroBuf2` and
`engDesc`. -/
def descOut : ResultBuffer := ⟨some [0, 1], some [5, 3], 2, 2⟩

/-- A result buffer of capacity 1. -/
def unitBuf : ResultBuffer := ⟨some [0], some [0], 0, 1⟩

/-- A result buffer of capacity 0. -/
def tinyBuf : ResultBuffer := ⟨some [0], some [0], 0, 0⟩

/-- An engine pop order with ascending distances. -/
def engAsc : List Neighbor := [⟨3, 1⟩, ⟨4, 2⟩]

/-- A result buffer of capacity 2 with previous contents 9. -/
def nineBuf2 : ResultBuffer := ⟨some [9, 9], some [9, 9], 0, 2⟩

/-- The buffer `nmslib_knn_query_fill` produces from `nineBuf2` and
`engAsc`. -/
def ascOut : ResultBuffer := ⟨some [3, 4], some [1, 2], 2, 2⟩

/-- An engine result with one neighbor. -/
def engOne : List Neighbor := [⟨0, 4⟩]

/-- The buffer `nmslib_knn_query_fill` produces from `unitBuf` and
`engOne`. -/
def oneOut : ResultBuffer := ⟨some [0], some [4], 1, 1⟩

/-- A lifetime of operations: build, a uint8 batch insert, a single
insert, a reset, a thread-pool resize and a failing rebuild. -/
def opsW : List HandleOp :=
  [.build true,
   .addBatchUint8 (some [[1, 2]]) 1 2 (some [0]),
   .addPoint (some (.dense [1])) 1 5,
   .reset,
   .setThreadPoolSize 8,
   .build false]

/-! ## Helper lemmas -/

/-- With `out` left at its `nullptr` default, the common-input guard
rejects every input. -/
theorem validate_common_inputs_noOut (i d : Bool) (s : Nat) :
    validate_common_inputs i d s false = .invalidArgument := by
  unfold validate_common_inputs
  repeat' split
  all_goals simp_all

/-- The common-input guard only ever produces `success` or
`invalidArgument`. -/
theorem validate_common_inputs_mem (i d : Bool) (s : Nat) (o : Bool) :
    validate_common_inputs i d s o = .success ∨
    validate_common_inputs i d s o = .invalidArgument := by
  unfold validate_common_inputs
  repeat' split
  all_goals simp

/-- The sparse-element guard only ever produces `success` or
`invalidSparseElement`. -/
theorem validate_sparse_elements_mem (e : Option (List SparseElem))
    (n : Nat) (s : Bool) :
    validate_sparse_elements e n s = .success ∨
    validate_sparse_elements e n s = .invalidSparseElement := by
  unfold validate_sparse_elements
  cases e
  · simp
  · repeat' split
    all_goals simp

/-- The sparse-element guard passes exactly the nonempty, strictly
increasing inputs (for a non-null pointer, with `sorted` requested and a
conforming count). -/
theorem validate_sparse_elements_iff (l : List SparseElem) :
    validate_sparse_elements (some l) l.length true = .success ↔
    l ≠ [] ∧ sparseIdsOrdered l = true := by
  unfold validate_sparse_elements
  constructor
  · intro h
    by_cases hl : l.length = 0
    · simp [hl] at h
    · constructor
      · intro hnil; rw [hnil] at hl; simp at hl
      · by_cases ho : sparseIdsOrdered l
        · exact ho
        · simp [hl, ho] at h
  · rintro ⟨hnil, ho⟩
    have hl : l.length ≠ 0 := by simpa using hnil
    simp [hl, ho]

/-- `nmslib_add_data_point` returns `invalidArgument` and leaves the
handle untouched on every input: its guard call leaves `out` at the
`nullptr` default. -/
theorem add_data_point_unreachable (h : Option IndexState)
    (d : Option Payload) (ec : Nat) (id : Int) :
    nmslib_add_data_point h d ec id = (.invalidArgument, h) := by
  unfold nmslib_add_data_point
  rw [validate_common_inputs_noOut]

/-- `nmslib_add_data_point_batch` returns `invalidArgument` and leaves
the handle untouched on every input, for the same reason. -/
theorem add_batch_unreachable (h : Option IndexState)
    (d : Option (List Payload)) (ec : Nat) (ids : Option (List Int))
    (ne : Option (List Nat)) :
    nmslib_add_data_point_batch h d ec ids ne = (.invalidArgument, h) := by
  unfold nmslib_add_data_point_batch
  rw [validate_common_inputs_noOut]

/-- `nmslib_add_data_point_batch_string` returns `invalidArgument` and
leaves the handle untouched on every input, for the same reason. -/
theorem add_batch_string_unreachable (h : Option IndexState)
    (d : Option (List String)) (ids : Option (List Int)) :
    nmslib_add_data_point_batch_string h d ids = (.invalidArgument, h) := by
  unfold nmslib_add_data_point_batch_string
  rw [validate_common_inputs_noOut]

/-- Exhaustive outcomes of the shared search-and-copy tail: a crash on
an unbuilt handle, an overflow that leaves the caller's buffer
untouched, or a successful copy of the engine's neighbors in order. -/
theorem searchFillCore_cases (st : IndexState) (buf : ResultBuffer)
    (eng : List Neighbor) :
    (st.hasIndexPtr = false ∧ searchFillCore st buf eng = .crash) ∨
    (buf.capacity < eng.length ∧
      searchFillCore st buf eng = .ret .bufferTooSmall (some buf)) ∨
    (eng.length ≤ buf.capacity ∧
      searchFillCore st buf eng = .ret .success (some
        { buf with
          size := eng.length,
          ids := some (writeArr (buf.ids.getD []) (eng.map Neighbor.id)),
          distances := some (writeArr (buf.distances.getD [])
            (eng.map Neighbor.dist)) })) := by
  unfold searchFillCore
  by_cases hb : st.hasIndexPtr
  · by_cases hc : buf.capacity < eng.length
    · exact Or.inr (Or.inl ⟨hc, by simp [hb, hc]⟩)
    · exact Or.inr (Or.inr ⟨Nat.le_of_not_lt hc, by simp [hb, hc]⟩)
  · left
    simp at hb
    exact ⟨hb, by simp [hb]⟩

/-- Exhaustive outcomes of the shared per-`data_type` dispatch: an early
error (never `success`, never `bufferTooSmall`) leaving the buffer
untouched, or the search-and-copy tail. -/
theorem queryDispatch_cases (st : IndexState) (q : Payload) (qcount : Nat)
    (buf : ResultBuffer) (eng : List Neighbor) :
    (∃ e, queryDispatch st q qcount buf eng = .ret e (some buf) ∧
       e ≠ .success ∧ e ≠ .bufferTooSmall) ∨
    queryDispatch st q qcount buf eng = searchFillCore st buf eng := by
  unfold queryDispatch
  cases q with
  | dense vals =>
    cases st.data_type with
    | denseVector =>
      cases hvs : st.space.isVectorSpace
      · exact Or.inl ⟨.spaceIncompatible, rfl, by decide, by decide⟩
      · exact Or.inr rfl
    | sparseVector => exact Or.inl ⟨.spaceIncompatible, rfl, by decide, by decide⟩
    | denseUint8Vector =>
      exact Or.inl ⟨.spaceIncompatible, rfl, by decide, by decide⟩
    | objectAsString =>
      exact Or.inl ⟨.spaceIncompatible, rfl, by decide, by decide⟩
  | sparse elems =>
    cases st.data_type with
    | sparseVector =>
      cases st.dist_type with
      | float =>
        rcases validate_sparse_elements_mem (some elems) qcount true with
          hv | hv
        · cases hsp : st.space.isSparseSpace
          · exact Or.inl ⟨.spaceIncompatible, by simp [hv, hsp], by decide,
              by decide⟩
          · exact Or.inr (by simp [hv, hsp])
        · exact Or.inl ⟨.invalidSparseElement, by simp [hv], by decide,
            by decide⟩
      | int => exact Or.inl ⟨.spaceIncompatible, rfl, by decide, by decide⟩
    | denseVector => exact Or.inl ⟨.spaceIncompatible, rfl, by decide, by decide⟩
    | denseUint8Vector =>
      exact Or.inl ⟨.spaceIncompatible, rfl, by decide, by decide⟩
    | objectAsString =>
      exact Or.inl ⟨.spaceIncompatible, rfl, by decide, by decide⟩
  | uint8v bytes =>
    cases st.data_type <;>
      exact Or.inl ⟨.spaceIncompatible, rfl, by decide, by decide⟩
  | objStr s =>
    cases st.data_type <;>
      exact Or.inl ⟨.spaceIncompatible, rfl, by decide, by decide⟩

/-- Exhaustive outcomes of `nmslib_knn_query_fill`: either an early
return of an error that is neither `success` nor `bufferTooSmall`, with
the caller's buffer untouched, or (for a live handle, non-null arrays
and `capacity ≥ k`) the shared search-and-copy tail. -/
theorem knn_fill_cases (h : Option IndexState) (q : Option Payload)
    (k : Nat) (result : Option ResultBuffer) (eng : List Neighbor) :
    (∃ e, nmslib_knn_query_fill h q k result eng = .ret e result ∧
       e ≠ .success ∧ e ≠ .bufferTooSmall) ∨
    (∃ st buf, h = some st ∧ result = some buf ∧ k ≤ buf.capacity ∧
       nmslib_knn_query_fill h q k result eng = searchFillCore st buf eng) := by
  cases h with
  | none => exact Or.inl ⟨.invalidArgument, rfl, by decide, by decide⟩
  | some st =>
  cases q with
  | none => exact Or.inl ⟨.invalidArgument, rfl, by decide, by decide⟩
  | some qp =>
  cases result with
  | none =>
    left
    refine ⟨.invalidArgument, ?_, by decide, by decide⟩
    unfold nmslib_knn_query_fill
    simp only [Option.isSome_some, Option.isSome_none]
    rw [validate_common_inputs_noOut]
  | some buf =>
  by_cases hq : payloadCount qp = 0
  · left
    refine ⟨.invalidArgument, ?_, by decide, by decide⟩
    unfold nmslib_knn_query_fill
    simp [validate_common_inputs, hq]
  · by_cases hbuf :
        (buf.ids.isNone || buf.distances.isNone || decide (buf.capacity < k)) = true
    · left
      refine ⟨.invalidArgument, ?_, by decide, by decide⟩
      unfold nmslib_knn_query_fill
      simp [validate_common_inputs, hq, hbuf]
    · have hcap : ¬ buf.capacity < k := fun hlt => hbuf (by simp [hlt])
      have hfill : nmslib_knn_query_fill (some st) (some qp) k (some buf) eng =
          queryDispatch st qp (payloadCount qp) buf eng := by
        unfold nmslib_knn_query_fill
        simp [validate_common_inputs, hq, hbuf]
      rcases queryDispatch_cases st qp (payloadCount qp) buf eng with
        ⟨e, he, h1, h2⟩ | hd
      · exact Or.inl ⟨e, by rw [hfill, he], h1, h2⟩
      · exact Or.inr ⟨st, buf, rfl, rfl, Nat.le_of_not_lt hcap, by rw [hfill, hd]⟩

/-- Exhaustive outcomes of `nmslib_range_query_fill`: an early error
return (never `success`, never `bufferTooSmall`) with the caller's
buffer untouched, or the shared search-and-copy tail. -/
theorem range_fill_cases (h : Option IndexState) (q : Option Payload)
    (radius : Int) (result : Option ResultBuffer) (eng : List Neighbor) :
    (∃ e, nmslib_range_query_fill h q radius result eng = .ret e result ∧
       e ≠ .success ∧ e ≠ .bufferTooSmall) ∨
    (∃ st buf, h = some st ∧ result = some buf ∧
       nmslib_range_query_fill h q radius result eng =
         searchFillCore st buf eng) := by
  cases h with
  | none => exact Or.inl ⟨.invalidArgument, rfl, by decide, by decide⟩
  | some st =>
  cases q with
  | none => exact Or.inl ⟨.invalidArgument, rfl, by decide, by decide⟩
  | some qp =>
  cases result with
  | none =>
    left
    refine ⟨.invalidArgument, ?_, by decide, by decide⟩
    unfold nmslib_range_query_fill
    simp only [Option.isSome_some, Option.isSome_none]
    rw [validate_common_inputs_noOut]
  | some buf =>
  by_cases hq : payloadCount qp = 0
  · left
    refine ⟨.invalidArgument, ?_, by decide, by decide⟩
    unfold nmslib_range_query_fill
    simp [validate_common_inputs, hq]
  · by_cases hbuf :
        (buf.ids.isNone || buf.distances.isNone || decide (buf.capacity = 0)) = true
    · left
      refine ⟨.invalidArgument, ?_, by decide, by decide⟩
      unfold nmslib_range_query_fill
      simp [validate_common_inputs, hq, hbuf]
    · have hfill : nmslib_range_query_fill (some st) (some qp) radius (some buf)
          eng = queryDispatch st qp (payloadCount qp) buf eng := by
        unfold nmslib_range_query_fill
        simp [validate_common_inputs, hq, hbuf]
      rcases queryDispatch_cases st qp (payloadCount qp) buf eng with
        ⟨e, he, h1, h2⟩ | hd
      · exact Or.inl ⟨e, by rw [hfill, he], h1, h2⟩
      · exact Or.inr ⟨st, buf, rfl, rfl, by rw [hfill, hd]⟩

/-- The uint8 batch loop only appends points; it never writes the
discriminant header. -/
theorem uint8BatchLoop_header (rows : List (List Nat)) (ids : List Int)
    (st : IndexState) :
    (uint8BatchLoop st rows ids).2.data_type = st.data_type ∧
    (uint8BatchLoop st rows ids).2.dist_type = st.dist_type := by
  induction rows generalizing st ids with
  | nil => exact ⟨rfl, rfl⟩
  | cons row rest ih =>
    cases ids with
    | nil => exact ⟨rfl, rfl⟩
    | cons id idrest =>
      obtain ⟨dt, dist, sp, hip, dat, m, stp, tps⟩ := st
      unfold uint8BatchLoop
      cases dt <;> cases dist <;> try exact ⟨rfl, rfl⟩
      cases hsift : sp.isSiftSpace
      · exact ⟨rfl, rfl⟩
      · exact ih idrest _

/-- No dispatched wrapper operation writes the discriminant header. -/
theorem applyOp_header (op : HandleOp) (st : IndexState) :
    (applyOp op st).data_type = st.data_type ∧
    (applyOp op st).dist_type = st.dist_type := by
  cases op with
  | addPoint d ec id => simp [applyOp, add_data_point_unreachable]
  | addBatch d ec ids ne => simp [applyOp, add_batch_unreachable]
  | addBatchString d ids => simp [applyOp, add_batch_string_unreachable]
  | addBatchUint8 d c ec ids =>
    cases d with
    | none => simp [applyOp, nmslib_add_data_point_batch_uint8]
    | some rows =>
      cases ids with
      | none => simp [applyOp, nmslib_add_data_point_batch_uint8]
      | some idlist =>
        by_cases hc : c = 0
        · simp [applyOp, nmslib_add_data_point_batch_uint8, hc]
        · by_cases he : ec = 0
          · simp [applyOp, nmslib_add_data_point_batch_uint8, hc, he]
          · by_cases hdt : st.data_type = .denseUint8Vector
            · have h1 := uint8BatchLoop_header rows idlist st
              simp [applyOp, nmslib_add_data_point_batch_uint8, hc, he, hdt,
                h1.1, h1.2]
            · simp [applyOp, nmslib_add_data_point_batch_uint8, hc, he, hdt]
  | build ok => cases ok <;> simp [applyOp, nmslib_create_index]
  | reset => simp [applyOp, nmslib_reset_index]
  | setThreadPoolSize n =>
    by_cases hn : n = 0 ∨ n > 1024
    · rcases hn with hn | hn <;>
        simp [applyOp, nmslib_set_thread_pool_size, hn]
    · push_neg at hn
      simp [applyOp, nmslib_set_thread_pool_size, hn.1, Nat.not_lt.mpr hn.2]

/-- No sequence of wrapper operations writes the discriminant header. -/
theorem applyOps_header (ops : List HandleOp) (st : IndexState) :
    (applyOps ops st).data_type = st.data_type ∧
    (applyOps ops st).dist_type = st.dist_type := by
  induction ops generalizing st with
  | nil => exact ⟨rfl, rfl⟩
  | cons op rest ih =>
    have h1 := applyOp_header op st
    have h2 := ih (applyOp op st)
    exact ⟨h2.1.trans h1.1, h2.2.trans h1.2⟩

/-- A successful `batchRowBody` appends exactly one point. -/
theorem batchRowBody_ok_shape (st : IndexState) (row : Payload) (ec : Nat)
    (id : Int) (ne : Option Nat) (st' : IndexState)
    (hok : batchRowBody st row ec id ne = .ok st') :
    ∃ p, st' = { st with data := st.data ++ [p] } := by
  obtain ⟨dt, dist, sp, hip, dat, m, stp, tps⟩ := st
  unfold batchRowBody at hok
  cases dt <;> cases row <;> try simp at hok
  case denseVector.dense v =>
    split at hok
    · simp only [Except.ok.injEq] at hok
      exact ⟨⟨id, .dense v⟩, hok.symm⟩
    · simp at hok
  case sparseVector.sparse elems =>
    cases dist with
    | float =>
      cases ne with
      | none => simp at hok
      | some n =>
        simp only [] at hok
        split at hok
        · split at hok
          · simp only [Except.ok.injEq] at hok
            exact ⟨⟨id, .sparse elems⟩, hok.symm⟩
          · simp at hok
        · simp at hok
    | int => simp at hok

/-- The batch-insert loop is append-only and monotonic: whatever it
returns, the points committed so far are kept (a failing element does
not roll back earlier appends of the same call). -/
theorem addBatchLoop_appends (rows : List Payload) (st : IndexState)
    (i ec : Nat) (ids : Option (List Int)) (ne : Option (List Nat)) :
    ∃ tail, (addBatchLoop st rows i ec ids ne).2.data = st.data ++ tail := by
  induction rows generalizing st i with
  | nil => exact ⟨[], by simp [addBatchLoop]⟩
  | cons row rest ih =>
    unfold addBatchLoop
    cases hb : batchRowBody st row ec (batchIdAt ids i st.data.length)
        (ne.map fun l => l.getD i 0) with
    | error e => exact ⟨[], by simp [hb]⟩
    | ok st' =>
      obtain ⟨p, hp⟩ := batchRowBody_ok_shape _ _ _ _ _ _ hb
      obtain ⟨tail, ht⟩ := ih st' (i + 1)
      refine ⟨p :: tail, ?_⟩
      show (addBatchLoop st' rest (i + 1) ec ids ne).2.data =
        st.data ++ (p :: tail)
      rw [ht, hp]
      simp

/-- A successful `nmslib_index_create` stamps the handle's discriminant
header with exactly the requested kinds. -/
theorem nmslib_index_create_header (fr ir : String → Option Space)
    (hw : Nat) (sp m : String) (P : DataType) (D : DistType)
    (st : IndexState)
    (h : nmslib_index_create fr ir hw sp m P D = .ok st) :
    st.data_type = P ∧ st.dist_type = D := by
  unfold nmslib_index_create at h
  cases D with
  | float =>
    cases hfr : fr sp <;> rw [hfr] at h <;> simp at h
    exact ⟨by rw [← h], by rw [← h]⟩
  | int =>
    cases hir : ir sp <;> rw [hir] at h <;> simp at h
    exact ⟨by rw [← h], by rw [← h]⟩

/-! ## Claim theorems -/

/-- Claim C1: for every handle created with point-encoding kind `P` and
distance-value kind `D`, reading the discriminant header after any
sequence of insert, build and reset operations (and the other mutators)
yields exactly `(P, D)`; no operation mutates the discriminant
fields. -/
theorem c1_discriminant_integrity (fr ir : String → Option Space)
    (hw : Nat) (sp m : String) (P : DataType) (D : DistType)
    (st : IndexState)
    (hcreate : nmslib_index_create fr ir hw sp m P D = .ok st)
    (ops : List HandleOp) :
    (applyOps ops st).data_type = P ∧ (applyOps ops st).dist_type = D := by
  have hst := nmslib_index_create_header fr ir hw sp m P D st hcreate
  have hh := applyOps_header ops st
  exact ⟨hh.1.trans hst.1, hh.2.trans hst.2⟩

/-- Witness for C1: a concrete dense/float handle keeps its
discriminant through a build, a batch insert, a single insert, a reset,
a resize and a failed rebuild. -/
theorem c1_discriminant_integrity_witness :
    (applyOps opsW freshDense).data_type = DataType.denseVector ∧
    (applyOps opsW freshDense).dist_type = DistType.float :=
  c1_discriminant_integrity regAll regAll 4 "l2" "hnsw" .denseVector
    .float freshDense rfl opsW

/-- Counterexample to C2 as stated: a range fill whose engine result
overflows the buffer returns `bufferTooSmall` but leaves the stale
`size = 7` in place instead of setting it to 0. -/
theorem c2_overflow_keeps_stale_size :
    nmslib_range_query_fill (some builtDense) (some (Payload.dense [1])) 0
        (some staleBuf) engTwo =
      Outcome.ret .bufferTooSmall (some staleBuf) ∧
    staleBuf.size = 7 := ⟨rfl, rfl⟩

/-- Claim C2 as amended: an overflowing fill returns `bufferTooSmall`
and leaves the caller's buffer entirely untouched — ids, distances and
the `size` field keep their previous values (`size` is *not* set to 0) —
and a successful fill reports `size` equal to the number of neighbors
found (0 when none). -/
theorem c2_fill_all_or_nothing (h : Option IndexState)
    (q : Option Payload) (k : Nat) (radius : Int)
    (result : Option ResultBuffer) (eng : List Neighbor) :
    (∀ b, nmslib_knn_query_fill h q k result eng =
        .ret .bufferTooSmall b → b = result) ∧
    (∀ b, nmslib_range_query_fill h q radius result eng =
        .ret .bufferTooSmall b → b = result) ∧
    (∀ b, nmslib_knn_query_fill h q k result eng =
        .ret .success (some b) → b.size = eng.length) ∧
    (∀ b, nmslib_range_query_fill h q radius result eng =
        .ret .success (some b) → b.size = eng.length) := by
  refine ⟨?_, ?_, ?_, ?_⟩
  · intro b hb
    rcases knn_fill_cases h q k result eng with
      ⟨e, he, _, h2⟩ | ⟨st, buf, _, hbuf, _, hfill⟩
    · rw [he] at hb
      simp only [Outcome.ret.injEq] at hb
      exact absurd hb.1 h2
    · rw [hfill] at hb
      rcases searchFillCore_cases st buf eng with
        ⟨_, hc⟩ | ⟨_, hc⟩ | ⟨_, hc⟩
      · rw [hc] at hb
        simp at hb
      · rw [hc] at hb
        simp only [Outcome.ret.injEq] at hb
        rw [hbuf, ← hb.2]
      · rw [hc] at hb
        simp only [Outcome.ret.injEq] at hb
        exact absurd hb.1 (by decide)
  · intro b hb
    rcases range_fill_cases h q radius result eng with
      ⟨e, he, _, h2⟩ | ⟨st, buf, _, hbuf, hfill⟩
    · rw [he] at hb
      simp only [Outcome.ret.injEq] at hb
      exact absurd hb.1 h2
    · rw [hfill] at hb
      rcases searchFillCore_cases st buf eng with
        ⟨_, hc⟩ | ⟨_, hc⟩ | ⟨_, hc⟩
      · rw [hc] at hb
        simp at hb
      · rw [hc] at hb
        simp only [Outcome.ret.injEq] at hb
        rw [hbuf, ← hb.2]
      · rw [hc] at hb
        simp only [Outcome.ret.injEq] at hb
        exact absurd hb.1 (by decide)
  · intro b hb
    rcases knn_fill_cases h q k result eng with
      ⟨e, he, h1, _⟩ | ⟨st, buf, _, _, _, hfill⟩
    · rw [he] at hb
      simp only [Outcome.ret.injEq] at hb
      exact absurd hb.1 h1
    · rw [hfill] at hb
      rcases searchFillCore_cases st buf eng with
        ⟨_, hc⟩ | ⟨_, hc⟩ | ⟨_, hc⟩
      · rw [hc] at hb
        simp at hb
      · rw [hc] at hb
        simp only [Outcome.ret.injEq] at hb
        exact absurd hb.1 (by decide)
      · rw [hc] at hb
        simp only [Outcome.ret.injEq, Option.some.injEq] at hb
        rw [← hb.2]
  · intro b hb
    rcases range_fill_cases h q radius result eng with
      ⟨e, he, h1, _⟩ | ⟨st, buf, _, _, hfill⟩
    · rw [he] at hb
      simp only [Outcome.ret.injEq] at hb
      exact absurd hb.1 h1
    · rw [hfill] at hb
      rcases searchFillCore_cases st buf eng with
        ⟨_, hc⟩ | ⟨_, hc⟩ | ⟨_, hc⟩
      · rw [hc] at hb
        simp at hb
      · rw [hc] at hb
        simp only [Outcome.ret.injEq] at hb
        exact absurd hb.1 (by decide)
      · rw [hc] at hb
        simp only [Outcome.ret.injEq, Option.some.injEq] at hb
        rw [← hb.2]

/-- Witness for the amended C2 at concrete inputs: an overflowing range
fill hands back the untouched buffer, and a one-neighbor k-NN fill
reports `size = 1`. -/
theorem c2_fill_all_or_nothing_witness :
    (some staleBuf : Option ResultBuffer) = some staleBuf ∧
    oneOut.size = 1 := by
  constructor
  · exact (c2_fill_all_or_nothing (some builtDense) (some (.dense [2])) 1 0
      (some staleBuf) engTwo).2.1 (some staleBuf) rfl
  · exact (c2_fill_all_or_nothing (some builtDense) (some (.dense [2])) 1 0
      (some unitBuf) engOne).2.2.1 oneOut rfl

/-- Claim C3 (the code diverges): a k-NN fill and a range size query on
a freshly created, never-built handle dereference the null `index_ptr`
(undefined behavior, modelled as `crash`) instead of returning
`indexNotBuilt`/`indexBuildFailed`. -/
theorem c3_unbuilt_query_crashes :
    nmslib_knn_query_fill (some freshDense) (some (Payload.dense [1, 2])) 1
        (some unitBuf) [] = Outcome.crash ∧
    nmslib_range_query_get_size (some freshDense)
        (some (Payload.dense [1, 2])) 0 true [] = SizeOutcome.crash :=
  ⟨rfl, rfl⟩

/-- Counterexample to C4 as stated: when the engine queue pops in
descending-distance order (a max-heap pops farthest first), the wrapper
writes the pairs in that pop order, so the output distances are not
ascending. -/
theorem c4_pop_order_not_normalized :
    nmslib_knn_query_fill (some builtDense) (some (Payload.dense [0])) 2
        (some zeroBuf2) engDesc = Outcome.ret .success (some descOut) ∧
    distAscending ((descOut.distances.getD []).take descOut.size) = false :=
  ⟨rfl, rfl⟩

/-- Claim C4 as amended: a successful k-NN fill writes the (id,
distance) pairs exactly in the engine queue's pop order — the wrapper
performs no reordering, so the output is ascending precisely when the
queue pops in ascending order. -/
theorem c4_fill_writes_pop_order (h : Option IndexState)
    (q : Option Payload) (k : Nat) (result : Option ResultBuffer)
    (eng : List Neighbor) (b : ResultBuffer)
    (hsucc : nmslib_knn_query_fill h q k result eng =
      .ret .success (some b)) :
    ∃ buf, result = some buf ∧
      b.ids = some (writeArr (buf.ids.getD []) (eng.map Neighbor.id)) ∧
      b.distances =
        some (writeArr (buf.distances.getD []) (eng.map Neighbor.dist)) ∧
      b.size = eng.length := by
  rcases knn_fill_cases h q k result eng with
    ⟨e, he, h1, _⟩ | ⟨st, buf, _, hbuf, _, hfill⟩
  · rw [he] at hsucc
    simp only [Outcome.ret.injEq] at hsucc
    exact absurd hsucc.1 h1
  · rw [hfill] at hsucc
    rcases searchFillCore_cases st buf eng with
      ⟨_, hc⟩ | ⟨_, hc⟩ | ⟨_, hc⟩
    · rw [hc] at hsucc
      simp at hsucc
    · rw [hc] at hsucc
      simp only [Outcome.ret.injEq] at hsucc
      exact absurd hsucc.1 (by decide)
    · rw [hc] at hsucc
      simp only [Outcome.ret.injEq, Option.some.injEq] at hsucc
      exact ⟨buf, hbuf, by rw [← hsucc.2], by rw [← hsucc.2],
        by rw [← hsucc.2]⟩

/-- Witness for the amended C4: a concrete fill from an
ascending-pop-order engine result reproduces that order. -/
theorem c4_fill_writes_pop_order_witness :
    ∃ buf, (some nineBuf2 : Option ResultBuffer) = some buf ∧
      ascOut.ids = some (writeArr (buf.ids.getD []) (engAsc.map Neighbor.id)) ∧
      ascOut.distances =
        some (writeArr (buf.distances.getD []) (engAsc.map Neighbor.dist)) ∧
      ascOut.size = engAsc.length :=
  c4_fill_writes_pop_order (some builtDense) (some (.dense [7])) 2
    (some nineBuf2) engAsc ascOut rfl

/-- Counterexample to C5 as stated: with a distance kind of `float` and
a space name the float registry does not recognize, creation fails with
`spaceIncompatible` even though the int registry recognizes the name —
there is no fallback to the other instantiation. -/
theorem c5_no_fallback_counterexample :
    (regAll "negdotprod").isSome = true ∧
    nmslib_index_create regNone regAll 4 "negdotprod" "hnsw"
      .denseVector .float = .error .spaceIncompatible := ⟨rfl, rfl⟩

/-- Claim C5 as amended: the factory dispatches on the caller-supplied
distance kind — `float` consults only the float registry and `int` only
the int registry; it fails `spaceIncompatible` exactly when the
consulted registry does not recognize the space name, independently of
the other registry. -/
theorem c5_create_dispatches_on_dist_kind (fr ir : String → Option Space)
    (hw : Nat) (sp m : String) (P : DataType) :
    (nmslib_index_create fr ir hw sp m P .float =
        .error .spaceIncompatible ↔ fr sp = none) ∧
    (nmslib_index_create fr ir hw sp m P .int =
        .error .spaceIncompatible ↔ ir sp = none) ∧
    (∀ ir', nmslib_index_create fr ir hw sp m P .float =
        nmslib_index_create fr ir' hw sp m P .float) ∧
    (∀ fr', nmslib_index_create fr ir hw sp m P .int =
        nmslib_index_create fr' ir hw sp m P .int) := by
  refine ⟨?_, ?_, fun ir' => rfl, fun fr' => rfl⟩
  · unfold nmslib_index_create
    cases hfr : fr sp <;> simp
  · unfold nmslib_index_create
    cases hir : ir sp <;> simp

/-- Claim C6 (the code diverges on the insert path): every single-point
insert — the strictly increasing sparse input `goodSparse` included —
returns `invalidArgument` before sparse validation ever runs, because
the three-argument guard call leaves `out` at its `nullptr` default;
the ordering check itself accepts `goodSparse`, and the query path does
reject an unordered sparse query with `invalidSparseElement`. -/
theorem c6_insert_guard_precedes_sparse_validation :
    sparseIdsOrdered goodSparse = true ∧
    nmslib_add_data_point (some sparseFloatSt)
        (some (Payload.sparse goodSparse)) 3 7 =
      (.invalidArgument, some sparseFloatSt) ∧
    nmslib_add_data_point (some sparseFloatSt)
        (some (Payload.sparse dupSparse)) 2 7 =
      (.invalidArgument, some sparseFloatSt) ∧
    nmslib_knn_query_fill (some builtSparse)
        (some (Payload.sparse dupSparse)) 1 (some unitBuf) [] =
      .ret .invalidSparseElement (some unitBuf) := ⟨rfl, rfl, rfl, rfl⟩

/-- Claim C7 (the code diverges): every batch insert call returns
`invalidArgument` from the same defaulted-`out` guard before its loop
runs, committing nothing — the commit-then-fail loop the claim
describes is unreachable (its body is append-only, see
`addBatchLoop_appends`). -/
theorem c7_batch_guard_rejects_all_calls :
    nmslib_add_data_point_batch (some freshDense)
        (some [Payload.dense [1], Payload.dense [2]]) 1 none none =
      (.invalidArgument, some freshDense) ∧
    freshDense.data = [] := ⟨rfl, rfl⟩

/-- Counterexample to C8 as stated: the uint8 batch insert rejects a
null `ids` array with `invalidArgument`, even though the same call with
ids supplied succeeds — no positional default is applied. -/
theorem c8_uint8_null_ids_rejected :
    nmslib_add_data_point_batch_uint8 (some u8St) (some [[1, 2], [3, 4]])
        2 2 none = (.invalidArgument, some u8St) ∧
    (nmslib_add_data_point_batch_uint8 (some u8St) (some [[1, 2], [3, 4]])
        2 2 (some [0, 1])).1 = ErrorCode.success := ⟨rfl, rfl⟩

/-- Claim C8 as amended: no batch-insert path accepts a null `ids`
array — the uint8 batch rejects it by its explicit guard, and the
dense/sparse and string batch calls are rejected unconditionally by the
defaulted-`out` common-input guard; in every case the call returns
`invalidArgument` and leaves the handle untouched. -/
theorem c8_no_batch_accepts_null_ids (h : Option IndexState) :
    (∀ d c ec, nmslib_add_data_point_batch_uint8 h d c ec none =
       (.invalidArgument, h)) ∧
    (∀ d ec ids ne, nmslib_add_data_point_batch h d ec ids ne =
       (.invalidArgument, h)) ∧
    (∀ d ids, nmslib_add_data_point_batch_string h d ids =
       (.invalidArgument, h)) := by
  refine ⟨?_, fun d ec ids ne => add_batch_unreachable h d ec ids ne,
    fun d ids => add_batch_string_unreachable h d ids⟩
  intro d c ec
  unfold nmslib_add_data_point_batch_uint8
  simp

/-- Counterexample to C9 as stated: a null-handle reset fails with
`invalidArgument`, not `nullPointer` (the `nullPointer` code is declared
but never returned). -/
theorem c9_null_handle_counterexample :
    (nmslib_reset_index none).1 = ErrorCode.invalidArgument ∧
    ErrorCode.invalidArgument ≠ ErrorCode.nullPointer := ⟨rfl, by decide⟩

/-- Claim C9 as amended: every dispatched operation invoked with a null
index handle fails with `invalidArgument` (and the fill operations leave
the caller's buffer untouched). -/
theorem c9_null_handle_invalid_argument :
    ∀ (d : Option Payload) (ec : Nat) (id : Int)
      (rows : Option (List Payload)) (ids : Option (List Int))
      (ne : Option (List Nat)) (u8 : Option (List (List Nat))) (c : Nat)
      (ss : Option (List String)) (ok : Bool) (n : Nat)
      (q : Option Payload) (k : Nat) (r : Option ResultBuffer)
      (eng : List Neighbor) (rad : Int) (outp : Bool),
      (nmslib_add_data_point none d ec id).1 = .invalidArgument ∧
      (nmslib_add_data_point_batch none rows ec ids ne).1 =
        .invalidArgument ∧
      (nmslib_add_data_point_batch_uint8 none u8 c ec ids).1 =
        .invalidArgument ∧
      (nmslib_add_data_point_batch_string none ss ids).1 =
        .invalidArgument ∧
      (nmslib_create_index none ok).1 = .invalidArgument ∧
      (nmslib_reset_index none).1 = .invalidArgument ∧
      (nmslib_set_thread_pool_size none n).1 = .invalidArgument ∧
      nmslib_knn_query_fill none q k r eng = .ret .invalidArgument r ∧
      nmslib_range_query_fill none q rad r eng =
        .ret .invalidArgument r ∧
      nmslib_range_query_get_size none q rad outp eng =
        .ret .invalidArgument none := by
  intro d ec id rows ids ne u8 c ss ok n q k r eng rad outp
  exact ⟨rfl, rfl, rfl, rfl, rfl, rfl, rfl, rfl, rfl, rfl⟩

/-- Claim C10: a k-NN fill whose buffer has a null array or capacity
below `k` returns `invalidArgument` with the buffer untouched, for every
possible engine result (so before any query construction or search);
and under `capacity ≥ k`, for any engine result of at most `k` neighbors
the `bufferTooSmall` branch is unreachable. -/
theorem c10_knn_capacity_guard (st : IndexState) (q : Payload) (k : Nat)
    (buf : ResultBuffer) :
    (buf.ids = none ∨ buf.distances = none ∨ buf.capacity < k →
       ∀ eng, nmslib_knn_query_fill (some st) (some q) k (some buf) eng =
         .ret .invalidArgument (some buf)) ∧
    (k ≤ buf.capacity →
       ∀ eng code b, eng.length ≤ k →
         nmslib_knn_query_fill (some st) (some q) k (some buf) eng =
           .ret code b →
         code ≠ .bufferTooSmall) := by
  constructor
  · intro hbad eng
    have hcond : (buf.ids.isNone || buf.distances.isNone ||
        decide (buf.capacity < k)) = true := by
      rcases hbad with hb | hb | hb <;> simp [hb]
    by_cases hq : payloadCount q = 0
    · unfold nmslib_knn_query_fill
      simp [validate_common_inputs, hq]
    · unfold nmslib_knn_query_fill
      simp [validate_common_inputs, hq, hcond]
  · intro hk eng code b hlen hret hcode
    subst hcode
    rcases knn_fill_cases (some st) (some q) k (some buf) eng with
      ⟨e, he, _, h2⟩ | ⟨st', buf', hst', hbuf', _, hfill⟩
    · rw [he] at hret
      simp only [Outcome.ret.injEq] at hret
      exact h2 hret.1
    · injection hbuf' with hb'
      subst hb'
      rw [hfill] at hret
      rcases searchFillCore_cases st' buf eng with
        ⟨_, hc⟩ | ⟨hover, hc⟩ | ⟨_, hc⟩
      · rw [hc] at hret
        simp at hret
      · exact absurd hover (Nat.not_lt.mpr (hlen.trans hk))
      · rw [hc] at hret
        simp only [Outcome.ret.injEq] at hret
        exact absurd hret.1 (by decide)

/-- Witness for C10 at concrete inputs: a capacity-0 buffer is rejected
with `invalidArgument`, and a within-capacity call's result code is not
`bufferTooSmall`. -/
theorem c10_knn_capacity_guard_witness :
    nmslib_knn_query_fill (some builtDense) (some (Payload.dense [1])) 1
        (some tinyBuf) engOne =
      Outcome.ret .invalidArgument (some tinyBuf) ∧
    ErrorCode.success ≠ ErrorCode.bufferTooSmall := by
  constructor
  · exact (c10_knn_capacity_guard builtDense (.dense [1]) 1 tinyBuf).1
      (Or.inr (Or.inr (by decide))) engOne
  · exact (c10_knn_capacity_guard builtDense (.dense [1]) 1 unitBuf).2
      (by decide) engOne .success (some oneOut) (by decide) rfl

end NmslibC
